import Mathlib

/-!
Shallow embedding of the Dispatch Engine of this repository:
`src/services/messageService.js` (bulk-dispatch queue, stats, retry
bookkeeping, log persistence), `src/services/whatsappService.js`
(session lifecycle, driver event handlers) and `src/utils/logUtils.js`
(`createLogEntry`, `saveLog`).

Conventions of the embedding:
* JS numbers that only ever hold counters are `Int` (so that decrements
  are total); indices and retry counters are `Nat`.
* Wall-clock values (`Date.now()`, `new Date()`) are abstract `Nat` ticks
  passed in as parameters.
* `this.io.emit(...)` calls are recorded in an `emits` list; `saveLog`
  calls are recorded in a `savedLogs` list (the file append itself is the
  excluded persistence collaborator).
* `setTimeout`-scheduled retries are modelled by a `Bool` flag returned
  from `handleFailedMessage` ("a retry timer was armed") together with
  `scheduleRetryFire`, the body of the timer callback.
* The external driver (whatsapp-web.js) and the per-attempt send/check
  results are an oracle `Nat → ProcOutcome` giving the outcome of each
  execution of a task.
-/

/-- The `stats` object of `MessageService` (messageService.js:18-23). -/
structure Stats where
  total : Int
  sent : Int
  failed : Int
  remaining : Int
deriving Repr, DecidableEq

/-- One entry of `messageRow.validPhones` (phone plus originating column). -/
structure PhoneData where
  phone : String
  column : String
deriving Repr, DecidableEq

/-- One spreadsheet row handed to `startBulkMessaging`. -/
structure MessageRow where
  rowNumber : Nat
  name : String
  civil_id : String
  message : String
  validPhones : List PhoneData
deriving Repr, DecidableEq

/-- Log entry shape produced by `createLogEntry` (logUtils.js). The nested
`contact` object is flattened into `contact*` fields. -/
structure LogEntry where
  id : String
  contactName : String
  contactCivilId : String
  contactRow : Nat
  contactColumn : String
  phone : String
  status : String
  message : Option String
  error : Option String
  timestamp : Nat
  retry_count : Nat
deriving Repr, DecidableEq

/-- Embeds `createLogEntry(messageRow, phone, status, message, error, timestamp, column)`
from logUtils.js; `now` stands for the `Date.now()` used in the `id`.
Note the source hardcodes `retry_count: 0`. -/
def createLogEntry (messageRow : MessageRow) (phone : String) (status : String)
    (message : Option String) (error : Option String) (timestamp : Nat)
    (column : String) (now : Nat) : LogEntry :=
  { id := toString messageRow.rowNumber ++ "_" ++ column ++ "_" ++ phone ++ "_" ++ toString now
    contactName := messageRow.name
    contactCivilId := messageRow.civil_id
    contactRow := messageRow.rowNumber
    contactColumn := column
    phone := phone
    status := status
    message := message
    error := error
    timestamp := timestamp
    retry_count := 0 }

/-- Events emitted through `this.io.emit` by `MessageService`. -/
inductive MEmit where
  | stats_update (s : Stats)
  | status_update (status : String)
  | message_sent (contact : String) (phone : String) (column : String)
      (row : Nat) (timestamp : Nat)
  | message_failed (contact : String) (phone : String) (column : String)
      (row : Nat) (error : String) (timestamp : Nat)
  | log_update (e : LogEntry)
  | log_cleared
deriving Repr, DecidableEq

/-- A task sitting in the `p-queue` instance: `queue.add(..., {priority})`.
`arrival` is the insertion tick (FIFO position). -/
structure QTask where
  arrival : Nat
  priority : Nat
  row : MessageRow
  pd : PhoneData
deriving Repr, DecidableEq

/-- Priority used for first-attempt tasks (messageService.js:78, `priority: 1`). -/
def freshTaskPriority : Nat := 1

/-- Priority used for retry re-submissions (messageService.js:183, `priority: 0`). -/
def retryTaskPriority : Nat := 0

/-- Mutable state of the `MessageService` singleton, plus recorded effects. -/
structure MsgState where
  isRunning : Bool
  isPaused : Bool
  stats : Stats
  messageLog : List LogEntry
  retryAttempts : List (String × Nat)
  queue : List QTask
  queuePaused : Bool
  nextArrival : Nat
  emits : List MEmit
  savedLogs : List LogEntry
deriving Repr, DecidableEq

/-- Lookup `this.retryAttempts.get(key) || 0`. -/
def mapGetD (m : List (String × Nat)) (k : String) : Nat :=
  match m.find? (fun p => p.1 == k) with
  | some p => p.2
  | none => 0

/-- Update `this.retryAttempts.set(key, v)`. -/
def mapSet (m : List (String × Nat)) (k : String) (v : Nat) : List (String × Nat) :=
  if (m.find? (fun p => p.1 == k)).isSome then
    m.map (fun p => if p.1 == k then (k, v) else p)
  else
    m ++ [(k, v)]

/-- The retry-map key `` `${rowNumber}_${column}_${phone}` `` (messageService.js:171). -/
def messageKey (messageRow : MessageRow) (phoneData : PhoneData) : String :=
  toString messageRow.rowNumber ++ "_" ++ phoneData.column ++ "_" ++ phoneData.phone

/-- Embeds `handleSuccessfulMessage` (messageService.js:136-165): bump `sent`,
drop `remaining`, append a `sent` entry, emit `message_sent`,
`stats_update`, `log_update`, forward the entry to `saveLog`. -/
def handleSuccessfulMessage (s : MsgState) (messageRow : MessageRow)
    (phoneData : PhoneData) (message : String) (resultTimestamp : Nat) : MsgState :=
  let stats' : Stats :=
    { s.stats with sent := s.stats.sent + 1, remaining := s.stats.remaining - 1 }
  let logEntry := createLogEntry messageRow phoneData.phone "sent" (some message)
    none resultTimestamp phoneData.column resultTimestamp
  { s with
    stats := stats'
    messageLog := s.messageLog ++ [logEntry]
    emits := s.emits ++
      [ .message_sent messageRow.name phoneData.phone phoneData.column
          messageRow.rowNumber resultTimestamp,
        .stats_update stats',
        .log_update logEntry ]
    savedLogs := s.savedLogs ++ [logEntry] }

/-- Embeds `handleFailedMessage` (messageService.js:170-222). The returned `Bool`
is `true` exactly when the retry branch armed the 15-second timer
(`setTimeout(... queue.add ...)`); the timer body is `scheduleRetryFire`.
In the retry branch only `retryAttempts` changes; otherwise the task is
terminally failed: bump `failed`, drop `remaining`, append a `failed`
entry, emit, forward to `saveLog`. -/
def handleFailedMessage (s : MsgState) (messageRow : MessageRow)
    (phoneData : PhoneData) (error : String) (now : Nat) : MsgState × Bool :=
  let key := messageKey messageRow phoneData
  let currentAttempts := mapGetD s.retryAttempts key
  if currentAttempts < 2 then
    ({ s with retryAttempts := mapSet s.retryAttempts key (currentAttempts + 1) }, true)
  else
    let stats' : Stats :=
      { s.stats with failed := s.stats.failed + 1, remaining := s.stats.remaining - 1 }
    let logEntry := createLogEntry messageRow phoneData.phone "failed" none
      (some error) now phoneData.column now
    ({ s with
       stats := stats'
       messageLog := s.messageLog ++ [logEntry]
       emits := s.emits ++
         [ .message_failed messageRow.name phoneData.phone phoneData.column
             messageRow.rowNumber error now,
           .stats_update stats',
           .log_update logEntry ]
       savedLogs := s.savedLogs ++ [logEntry] }, false)

/-- Body of the retry timer callback (messageService.js:181-185): at fire
time, re-enqueue the task at `priority: 0` only if still running and not
paused. -/
def scheduleRetryFire (s : MsgState) (messageRow : MessageRow)
    (phoneData : PhoneData) : MsgState :=
  if s.isRunning && !s.isPaused then
    { s with
      queue := s.queue ++
        [{ arrival := s.nextArrival, priority := retryTaskPriority,
           row := messageRow, pd := phoneData }]
      nextArrival := s.nextArrival + 1 }
  else s

/-- Outcome of one execution of `processMessage` as determined by the
external session: the registration check result and the send result. -/
inductive ProcOutcome where
  | regInvalid (reason : String)
  | sendOk (timestamp : Nat)
  | sendNotSuccess
  | sendThrew (message : String)
deriving Repr, DecidableEq

/-- Embeds `processMessage` (messageService.js:102-131): skip silently when not
running or paused; on invalid registration call `handleFailedMessage`
with reason `Phone not registered: ...`; on send success call
`handleSuccessfulMessage`; on `result.success == false` fail with
`Failed to send message`; on a thrown error fail with `error.message`. -/
def processMessage (s : MsgState) (messageRow : MessageRow)
    (phoneData : PhoneData) (outcome : ProcOutcome) (now : Nat) : MsgState × Bool :=
  if !s.isRunning || s.isPaused then (s, false)
  else
    match outcome with
    | .regInvalid reason =>
        handleFailedMessage s messageRow phoneData
          ("Phone not registered: " ++ reason) now
    | .sendOk ts =>
        (handleSuccessfulMessage s messageRow phoneData messageRow.message ts, false)
    | .sendNotSuccess =>
        handleFailedMessage s messageRow phoneData "Failed to send message" now
    | .sendThrew msg =>
        handleFailedMessage s messageRow phoneData msg now

/-- Total message count of a batch:
`messageRows.reduce((t, row) => t + row.validPhones.length, 0)`. -/
def batchTotal (messageRows : List MessageRow) : Nat :=
  (messageRows.map (fun r => r.validPhones.length)).sum

/-- Embeds `startBulkMessaging` (messageService.js:31-97) up to the point where
the queue starts draining: guard clauses throw, stats/log/retry state are
reset, the initial snapshot is emitted, and every (row, phone) pair is
enqueued in row-major order at `freshTaskPriority`. -/
def startBulkMessaging (s : MsgState) (waIsReady : Bool)
    (messageRows : List MessageRow) : Except String MsgState :=
  if s.isRunning then .error "Messaging process is already running"
  else if !waIsReady then .error "WhatsApp is not ready"
  else
    let totalMessages := batchTotal messageRows
    let stats' : Stats :=
      { total := (totalMessages : Int), sent := 0, failed := 0,
        remaining := (totalMessages : Int) }
    let pairs := messageRows.flatMap (fun r => r.validPhones.map (fun pd => (r, pd)))
    .ok { s with
      isRunning := true
      isPaused := false
      stats := stats'
      messageLog := []
      retryAttempts := []
      emits := s.emits ++ [.stats_update stats', .status_update "sending"]
      queue := s.queue ++ pairs.enum.map (fun p =>
        { arrival := s.nextArrival + p.1, priority := freshTaskPriority,
          row := p.2.1, pd := p.2.2 })
      nextArrival := s.nextArrival + pairs.length }

/-- Embeds `cancelMessaging` (messageService.js:257-274): throws when idle;
otherwise clears the running/paused flags, clears the pending queue and
pauses it (the delayed `queue.start()` re-arm is a fire-and-forget timer
outside this step), and emits the `cancelled` status. -/
def cancelMessaging (s : MsgState) : Except String MsgState :=
  if !s.isRunning then .error "No messaging process is running"
  else
    .ok { s with
      isRunning := false
      isPaused := false
      queue := []
      queuePaused := true
      emits := s.emits ++ [.status_update "cancelled"] }

/-- One dispatch-engine event: some task's `processMessage` execution with
its externally determined outcome. -/
inductive DispatchEvent where
  | proc (row : MessageRow) (pd : PhoneData) (outcome : ProcOutcome) (now : Nat)
deriving Repr, DecidableEq

/-- Apply one dispatch event to the service state. -/
def applyEvent (s : MsgState) (ev : DispatchEvent) : MsgState :=
  match ev with
  | .proc row pd outcome now => (processMessage s row pd outcome now).1

/-- Run a sequence of dispatch events. -/
def runEvents (s : MsgState) (evs : List DispatchEvent) : MsgState :=
  evs.foldl applyEvent s

/-- Execute one task to settlement: run `processMessage` with the oracle's
outcome for execution `k`; while a retry timer is armed and at fire time
the batch is still running and not paused, run the next execution. `fuel`
bounds the recursion (3 suffices from a fresh retry key). -/
def runTask (s : MsgState) (messageRow : MessageRow) (phoneData : PhoneData)
    (oracle : Nat → ProcOutcome) (k : Nat) : Nat → MsgState
  | 0 => s
  | fuel + 1 =>
    let r := processMessage s messageRow phoneData (oracle k) k
    if r.2 && r.1.isRunning && !r.1.isPaused then
      runTask r.1 messageRow phoneData oracle (k + 1) fuel
    else r.1

/-- The `sent + failed + remaining == total` aggregate invariant. -/
def statsInv (st : Stats) : Prop :=
  st.sent + st.failed + st.remaining = st.total

instance (st : Stats) : Decidable (statsInv st) := by
  unfold statsInv; infer_instance

/-- A fresh `MessageService` state as built by the constructor
(messageService.js:4-26). -/
def initialMsgState : MsgState :=
  { isRunning := false
    isPaused := false
    stats := { total := 0, sent := 0, failed := 0, remaining := 0 }
    messageLog := []
    retryAttempts := []
    queue := []
    queuePaused := false
    nextArrival := 0
    emits := []
    savedLogs := [] }

/-- Phone P1 of the fixed scenario (row A, column C). -/
def phoneP1 : PhoneData := { phone := "96550000001", column := "C" }

/-- Phone P2 of the fixed scenario (row A, column D). -/
def phoneP2 : PhoneData := { phone := "96550000002", column := "D" }

/-- Phone P3 of the fixed scenario (row B, column C). -/
def phoneP3 : PhoneData := { phone := "96550000003", column := "C" }

/-- Scenario row A: phones [P1, P2], message "hello". -/
def rowA : MessageRow :=
  { rowNumber := 1, name := "A", civil_id := "111", message := "hello",
    validPhones := [phoneP1, phoneP2] }

/-- Scenario row B: phone [P3], message "bye". -/
def rowB : MessageRow :=
  { rowNumber := 2, name := "B", civil_id := "222", message := "bye",
    validPhones := [phoneP3] }

/-- Driver stub for P1: succeeds on the first attempt. -/
def oracleP1 : Nat → ProcOutcome := fun _ => .sendOk 10

/-- Driver stub for P2: fails the initial attempt, succeeds on the first
retry. -/
def oracleP2 : Nat → ProcOutcome := fun k =>
  if k = 0 then .sendThrew "Failed to send message: network error" else .sendOk 20

/-- Driver stub for P3: every attempt fails. -/
def oracleP3 : Nat → ProcOutcome := fun _ => .sendThrew "Failed to send message: network error"

/-- The scenario batch right after `startBulkMessaging` reset the state and
enqueued the tasks. -/
def scenarioStart : MsgState :=
  match startBulkMessaging initialMsgState true [rowA, rowB] with
  | .ok s => s
  | .error _ => initialMsgState

/-- End state of the fixed scenario: each task runs to settlement (tasks
are independent: distinct retry keys, commuting stats updates). -/
def scenarioFinal : MsgState :=
  runTask (runTask (runTask scenarioStart rowA phoneP1 oracleP1 0 3)
      rowA phoneP2 oracleP2 0 3)
    rowB phoneP3 oracleP3 0 3

/-- Events emitted through `this.io.emit` by `WhatsAppService`. Payloads
that the source may pass through as `undefined` are `Option String`. -/
inductive WEmit where
  | qr (dataUrl : String)
  | authenticated (message : String)
  | ready (message : String)
  | auth_failure (error : Option String)
  | disconnected (reason : Option String)
  | clientError (message : String)
  | whatsapp_connection_started (attempt : Nat) (maxAttempts : Nat)
  | whatsapp_connection_failed (error : String)
deriving Repr, DecidableEq

/-- Mutable state of the `WhatsAppService` singleton. `clientGen` counts
driver-client allocations (`initializeClient` calls); `destroyCount`
counts `client.destroy()` teardowns. -/
structure WAState where
  isReady : Bool
  isInitializing : Bool
  qrCode : Option String
  clientGen : Nat
  destroyCount : Nat
deriving Repr, DecidableEq

/-- Driver event handler type: (state, raw event argument) to (state,
emissions). The argument is the `msg`/`reason`/`qr` payload, `none` when
the driver passed nothing. -/
def WAHandler : Type := WAState → Option String → WAState × List WEmit

/-- The handler registrations performed by `setupEventHandlers`
(whatsappService.js:69-165), in registration order. `auth_failure` and
`disconnected` are each registered twice — once at lines 113-126 and
again at lines 139-150. Handlers that only log are state-identities. -/
def waEventHandlers : List (String × WAHandler) :=
  [ ("loading_screen", fun s _ => (s, [])),
    ("qr", fun s arg =>
      ({ s with qrCode := some (arg.getD "") }, [.qr (arg.getD "")])),
    ("authenticated", fun s _ =>
      ({ s with qrCode := none }, [.authenticated "تم التوثيق بنجاح"])),
    ("ready", fun s _ =>
      ({ s with isReady := true, qrCode := none }, [.ready "واتساب جاهز للاستخدام"])),
    ("auth_failure", fun s m =>
      ({ s with isReady := false, qrCode := none },
       [.auth_failure (some (m.getD "فشل في التوثيق"))])),
    ("disconnected", fun s r =>
      ({ s with isReady := false, qrCode := none },
       [.disconnected (some (r.getD "تم قطع الاتصال"))])),
    ("change_state", fun s _ => (s, [])),
    ("message", fun s _ => (s, [])),
    ("auth_failure", fun s m =>
      ({ s with isReady := false }, [.auth_failure m])),
    ("disconnected", fun s r =>
      ({ s with isReady := false }, [.disconnected r])),
    ("message_ack", fun s _ => (s, [])),
    ("error", fun s m => (s, [.clientError (m.getD "")])) ]

/-- Deliver one driver event: every handler registered under that event
name runs, in registration order (Node `EventEmitter` semantics),
threading the state and concatenating emissions. -/
def dispatchWAEvent (name : String) (arg : Option String) (s : WAState) :
    WAState × List WEmit :=
  waEventHandlers.foldl
    (fun acc h =>
      if h.1 == name then
        let r := h.2 acc.1 arg
        (r.1, acc.2 ++ r.2)
      else acc)
    (s, [])

/-- Recursive body of `initialize` (whatsappService.js:181-234), reached
after the guard clauses: mark initializing, emit the attempt
notification, destroy any existing client and allocate a fresh one, then
either the connect attempt succeeds (oracle `attemptOk retryCount`), or
it fails: destroy the client again and recurse while
`retryCount < maxRetries - 1`, finally giving up with the
`whatsapp_connection_failed` emission. The `Nat` fuel is structural
(3 from `initWhatsApp`); the emissions are returned alongside. -/
def initWhatsAppGo (s : WAState) (attemptOk : Nat → Bool) (retryCount : Nat) :
    Nat → Bool × WAState × List WEmit
  | 0 => (false, s, [])
  | fuel + 1 =>
    let s1 := { s with isInitializing := true }
    let e1 : List WEmit := [.whatsapp_connection_started (retryCount + 1) 3]
    let s2 := { s1 with destroyCount := s1.destroyCount + 1,
                        clientGen := s1.clientGen + 1 }
    if attemptOk retryCount then
      (true, { s2 with isInitializing := false }, e1)
    else
      let s3 := { s2 with isInitializing := false,
                          destroyCount := s2.destroyCount + 1 }
      if retryCount < 2 then
        let r := initWhatsAppGo s3 attemptOk (retryCount + 1) fuel
        (r.1, r.2.1, e1 ++ r.2.2)
      else
        (false, s3,
         e1 ++ [.whatsapp_connection_failed "فشل في تهيئة واتساب بعد عدة محاولات. يرجى المحاولة مرة أخرى لاحقًا."])

/-- Embeds `initialize(retryCount = 0)` (whatsappService.js:167-235): skip with
`false` when already initializing; return `true` immediately when
already ready; otherwise run the connect sequence with `maxRetries = 3`. -/
def initWhatsApp (s : WAState) (attemptOk : Nat → Bool) :
    Bool × WAState × List WEmit :=
  if s.isInitializing then (false, s, [])
  else if s.isReady then (true, s, [])
  else initWhatsAppGo s attemptOk 0 3

/-- The p-queue scheduling discipline used by `this.queue`: among pending
tasks, one with the greatest `priority` runs first; among equal
priorities, the earliest arrival (FIFO). -/
def betterQTask (a b : QTask) : Bool :=
  decide (b.priority < a.priority) ||
    (a.priority == b.priority && decide (a.arrival < b.arrival))

/-- The next task p-queue would hand to the worker. -/
def pqueueNext : List QTask → Option QTask
  | [] => none
  | t :: ts =>
    match pqueueNext ts with
    | none => some t
    | some u => if betterQTask u t then some u else some t

/-- Object-reference model for the getter claims: the service's `stats`
object and `messageLog` array are heap cells designated by `statsRef` /
`logRef`; other cells belong to callers. -/
structure SvcHeap where
  statsCells : List Stats
  logCells : List (List LogEntry)
  statsRef : Nat
  logRef : Nat
deriving Repr, DecidableEq

/-- Read a stats cell (a dangling reference reads a zero object). -/
def readStatsCell (h : SvcHeap) (r : Nat) : Stats :=
  h.statsCells.getD r { total := 0, sent := 0, failed := 0, remaining := 0 }

/-- Read a log-array cell. -/
def readLogCell (h : SvcHeap) (r : Nat) : List LogEntry :=
  h.logCells.getD r []

/-- Embeds `getStats()` (messageService.js:292-294): `return { ...this.stats }` —
allocate a fresh object whose fields are copied from the service's stats
object, and hand the caller a reference to the fresh object. -/
def getStats (h : SvcHeap) : SvcHeap × Nat :=
  ({ h with statsCells := h.statsCells ++ [readStatsCell h h.statsRef] },
   h.statsCells.length)

/-- Embeds `getMessageLog()` (messageService.js:299-301): `return
[...this.messageLog]` — allocate a fresh array holding the same entries
and hand the caller a reference to it. -/
def getMessageLog (h : SvcHeap) : SvcHeap × Nat :=
  ({ h with logCells := h.logCells ++ [readLogCell h h.logRef] },
   h.logCells.length)

/-- A caller mutating the object behind a stats reference. -/
def writeStatsCell (h : SvcHeap) (r : Nat) (v : Stats) : SvcHeap :=
  { h with statsCells := h.statsCells.set r v }

/-- A caller mutating the array behind a log reference. -/
def writeLogCell (h : SvcHeap) (r : Nat) (v : List LogEntry) : SvcHeap :=
  { h with logCells := h.logCells.set r v }

/-- Driver stub that fails executions 0, 1 and 2 of a task and would
succeed on execution 3 — the conceptual third retry. -/
def conceptualThirdOracle : Nat → ProcOutcome := fun k =>
  if k < 3 then .sendThrew "Failed to send message: network error" else .sendOk 99

/-- A `WhatsAppService` state that has reached Ready with no init in
flight. -/
def readyWAState : WAState :=
  { isReady := true, isInitializing := false, qrCode := none,
    clientGen := 1, destroyCount := 0 }

/-- An in-flight initialization state. -/
def initializingWAState : WAState :=
  { isReady := false, isInitializing := true, qrCode := none,
    clientGen := 1, destroyCount := 0 }

/-- A retry task already waiting in the queue (arrival tick 0). -/
def retryDemoTask : QTask :=
  { arrival := 0, priority := retryTaskPriority, row := rowB, pd := phoneP3 }

/-- A first-attempt task enqueued after the retry (arrival tick 1). -/
def freshDemoTask : QTask :=
  { arrival := 1, priority := freshTaskPriority, row := rowA, pd := phoneP1 }

/-- The state produced by a successful `cancelMessaging` call. -/
def cancelResult (s : MsgState) : MsgState :=
  { s with
    isRunning := false
    isPaused := false
    queue := []
    queuePaused := true
    emits := s.emits ++ [.status_update "cancelled"] }

/-- A concrete one-cell service heap for the getter witness. -/
def demoHeap : SvcHeap :=
  { statsCells := [{ total := 3, sent := 1, failed := 1, remaining := 1 }]
    logCells := [[]]
    statsRef := 0
    logRef := 0 }

/-- Detects an `auth_failure` emission. -/
def isAuthFailureEmit : WEmit → Bool
  | .auth_failure _ => true
  | _ => false

/-- Detects a `disconnected` emission. -/
def isDisconnectedEmit : WEmit → Bool
  | .disconnected _ => true
  | _ => false

-- Helper lemmas shared by the claim theorems.

theorem statsInv_handleSuccess (s : MsgState) (row : MessageRow) (pd : PhoneData)
    (m : String) (ts : Nat) (h : statsInv s.stats) :
    statsInv (handleSuccessfulMessage s row pd m ts).stats := by
  simp only [handleSuccessfulMessage, statsInv] at *
  omega

theorem statsInv_handleFailed (s : MsgState) (row : MessageRow) (pd : PhoneData)
    (e : String) (n : Nat) (h : statsInv s.stats) :
    statsInv ((handleFailedMessage s row pd e n).1).stats := by
  simp only [handleFailedMessage]
  split
  · exact h
  · simp only [statsInv] at *
    omega

theorem handleFailed_retry_stats (s : MsgState) (row : MessageRow) (pd : PhoneData)
    (e : String) (n : Nat)
    (h : mapGetD s.retryAttempts (messageKey row pd) < 2) :
    (handleFailedMessage s row pd e n).1.stats = s.stats := by
  simp only [handleFailedMessage]
  rw [if_pos h]

theorem scheduleRetryFire_stats (s : MsgState) (row : MessageRow) (pd : PhoneData) :
    (scheduleRetryFire s row pd).stats = s.stats := by
  unfold scheduleRetryFire
  split <;> rfl

theorem statsInv_applyEvent (s : MsgState) (ev : DispatchEvent)
    (h : statsInv s.stats) : statsInv (applyEvent s ev).stats := by
  cases ev with
  | proc row pd outcome now =>
    simp only [applyEvent, processMessage]
    split
    · exact h
    · cases outcome with
      | regInvalid reason => exact statsInv_handleFailed _ _ _ _ _ h
      | sendOk ts => exact statsInv_handleSuccess _ _ _ _ _ h
      | sendNotSuccess => exact statsInv_handleFailed _ _ _ _ _ h
      | sendThrew msg => exact statsInv_handleFailed _ _ _ _ _ h

theorem statsInv_runEvents (s : MsgState) (evs : List DispatchEvent)
    (h : statsInv s.stats) : statsInv (runEvents s evs).stats := by
  induction evs generalizing s with
  | nil => exact h
  | cons ev evs ih => exact ih _ (statsInv_applyEvent _ _ h)

theorem statsInv_start (s : MsgState) (ready : Bool) (rows : List MessageRow)
    (s' : MsgState) (h : startBulkMessaging s ready rows = .ok s') :
    statsInv s'.stats := by
  unfold startBulkMessaging at h
  split at h
  · exact absurd h (by simp)
  · split at h
    · exact absurd h (by simp)
    · injection h with h
      subst h
      simp [statsInv]

/-- C1: for every batch, after `startBulkMessaging` emits its initial
snapshot the stats satisfy `sent + failed + remaining = total`; both
terminal-outcome handlers (`handleSuccessfulMessage`,
`handleFailedMessage`) preserve the equation — hence any sequence of
dispatch events does — and retry scheduling (the retry branch of
`handleFailedMessage` and the timer body `scheduleRetryFire`) leaves
`stats` unchanged. -/
theorem C1_stats_invariant :
    (∀ s ready rows s', startBulkMessaging s ready rows = .ok s' → statsInv s'.stats) ∧
    (∀ s row pd m ts, statsInv s.stats →
      statsInv (handleSuccessfulMessage s row pd m ts).stats) ∧
    (∀ s row pd e n, statsInv s.stats →
      statsInv ((handleFailedMessage s row pd e n).1).stats) ∧
    (∀ s evs, statsInv s.stats → statsInv (runEvents s evs).stats) ∧
    (∀ s row pd e n, mapGetD s.retryAttempts (messageKey row pd) < 2 →
      (handleFailedMessage s row pd e n).1.stats = s.stats) ∧
    (∀ s row pd, (scheduleRetryFire s row pd).stats = s.stats) :=
  ⟨statsInv_start, statsInv_handleSuccess, statsInv_handleFailed,
   statsInv_runEvents, handleFailed_retry_stats, scheduleRetryFire_stats⟩

/-- C1 witness: the invariant instantiated on the concrete scenario batch,
with every hypothesis discharged at concrete inputs. -/
theorem C1_stats_invariant_witness :
    statsInv scenarioStart.stats ∧
    statsInv (runEvents scenarioStart [.proc rowA phoneP1 (.sendOk 10) 0]).stats ∧
    (handleFailedMessage scenarioStart rowA phoneP1 "boom" 0).1.stats = scenarioStart.stats := by
  refine ⟨?_, ?_, ?_⟩
  · exact C1_stats_invariant.1 initialMsgState true [rowA, rowB] scenarioStart rfl
  · exact C1_stats_invariant.2.2.2.1 scenarioStart _
      (C1_stats_invariant.1 initialMsgState true [rowA, rowB] scenarioStart rfl)
  · exact C1_stats_invariant.2.2.2.2.1 scenarioStart rowA phoneP1 "boom" 0 (by decide)

/-- C2 counterexample: in the fixed scenario (P1 succeeds, P2 succeeds on
its first retry, P3 always fails), P2's terminal log entry does NOT show
`retry_count = 1` and P3's does NOT show `retry_count = 2`: the source's
`createLogEntry` hardcodes `retry_count: 0` and no caller ever overwrites
it, so both entries carry `retry_count = 0`. -/
theorem C2_counterexample :
    ¬ ((scenarioFinal.messageLog.find? (fun e => e.phone == phoneP2.phone)).map
        LogEntry.retry_count = some 1) ∧
    ¬ ((scenarioFinal.messageLog.find? (fun e => e.phone == phoneP3.phone)).map
        LogEntry.retry_count = some 2) ∧
    (scenarioFinal.messageLog.find? (fun e => e.phone == phoneP2.phone)).map
        LogEntry.retry_count = some 0 ∧
    (scenarioFinal.messageLog.find? (fun e => e.phone == phoneP3.phone)).map
        LogEntry.retry_count = some 0 := by
  refine ⟨?_, ?_, ?_, ?_⟩ <;> decide

/-- C2 amended: every terminal LogEntry records `retry_count = 0`
regardless of the retries its task actually consumed (the consumed
retries live only in the `retryAttempts` map). In the fixed scenario the
end state is `sent = 2, failed = 1, remaining = 0` with 3 log entries;
P2's entry has status `sent` with `retry_count = 0` while the retry map
records 1 retry for P2, and P3's entry has status `failed` with
`retry_count = 0` while the retry map records 2 retries for P3. -/
theorem C2_amended_retry_count_zero :
    (∀ row phone status m e ts col now,
      (createLogEntry row phone status m e ts col now).retry_count = 0) ∧
    scenarioFinal.stats = { total := 3, sent := 2, failed := 1, remaining := 0 } ∧
    scenarioFinal.messageLog.length = 3 ∧
    (scenarioFinal.messageLog.find? (fun e => e.phone == phoneP2.phone)).map
        (fun e => (e.status, e.retry_count)) = some ("sent", 0) ∧
    (scenarioFinal.messageLog.find? (fun e => e.phone == phoneP3.phone)).map
        (fun e => (e.status, e.retry_count)) = some ("failed", 0) ∧
    mapGetD scenarioFinal.retryAttempts (messageKey rowA phoneP2) = 1 ∧
    mapGetD scenarioFinal.retryAttempts (messageKey rowB phoneP3) = 2 := by
  refine ⟨fun _ _ _ _ _ _ _ _ => rfl, ?_, ?_, ?_, ?_, ?_, ?_⟩ <;> decide

theorem find?_map_mapSet (m : List (String × Nat)) (k : String) (v : Nat) :
    (m.map (fun p => if p.1 == k then (k, v) else p)).find? (fun p => p.1 == k) =
      if (m.find? (fun p => p.1 == k)).isSome then some (k, v) else none := by
  induction m with
  | nil => rfl
  | cons a m ih =>
    simp only [List.map_cons]
    by_cases h : (a.1 == k) = true
    · rw [if_pos h]
      simp only [List.find?_cons, h, beq_self_eq_true]
      rfl
    · have h' : (a.1 == k) = false := by simpa using h
      rw [if_neg h]
      simp only [List.find?_cons, h']
      exact ih

theorem mapGetD_mapSet_self (m : List (String × Nat)) (k : String) (v : Nat) :
    mapGetD (mapSet m k v) k = v := by
  unfold mapSet
  split
  · rename_i h
    unfold mapGetD
    rw [find?_map_mapSet, if_pos h]
  · rename_i h
    unfold mapGetD
    have h0 : m.find? (fun p => p.1 == k) = none := by
      cases hf : m.find? (fun p => p.1 == k) with
      | none => rfl
      | some p => rw [hf] at h; simp at h
    rw [List.find?_append, h0]
    simp [List.find?]

theorem handleFailed_retry_le (s : MsgState) (row : MessageRow) (pd : PhoneData)
    (e : String) (n : Nat)
    (h : mapGetD s.retryAttempts (messageKey row pd) ≤ 2) :
    mapGetD ((handleFailedMessage s row pd e n).1).retryAttempts (messageKey row pd) ≤ 2 := by
  simp only [handleFailedMessage]
  split
  · rename_i hlt
    simp only [mapGetD_mapSet_self]
    omega
  · exact h

theorem processMessage_retry_le (s : MsgState) (row : MessageRow) (pd : PhoneData)
    (outcome : ProcOutcome) (now : Nat)
    (h : mapGetD s.retryAttempts (messageKey row pd) ≤ 2) :
    mapGetD ((processMessage s row pd outcome now).1).retryAttempts (messageKey row pd) ≤ 2 := by
  unfold processMessage
  split
  · exact h
  · cases outcome with
    | regInvalid r => exact handleFailed_retry_le _ _ _ _ _ h
    | sendOk ts => simpa [handleSuccessfulMessage] using h
    | sendNotSuccess => exact handleFailed_retry_le _ _ _ _ _ h
    | sendThrew m => exact handleFailed_retry_le _ _ _ _ _ h

theorem runTask_retry_le (row : MessageRow) (pd : PhoneData) (o : Nat → ProcOutcome) :
    ∀ (fuel k : Nat) (s : MsgState),
      mapGetD s.retryAttempts (messageKey row pd) ≤ 2 →
      mapGetD (runTask s row pd o k fuel).retryAttempts (messageKey row pd) ≤ 2 := by
  intro fuel
  induction fuel with
  | zero => intro k s h; exact h
  | succ n ih =>
    intro k s h
    simp only [runTask]
    split
    · exact ih (k + 1) _ (processMessage_retry_le _ _ _ _ _ h)
    · exact processMessage_retry_le _ _ _ _ _ h

theorem runTask_oracle_agree (row : MessageRow) (pd : PhoneData) :
    ∀ (fuel k : Nat) (s : MsgState) (o o' : Nat → ProcOutcome),
      (∀ j, k ≤ j → j < k + fuel → o j = o' j) →
      runTask s row pd o k fuel = runTask s row pd o' k fuel := by
  intro fuel
  induction fuel with
  | zero => intro k s o o' _; rfl
  | succ n ih =>
    intro k s o o' h
    simp only [runTask]
    rw [h k le_rfl (by omega)]
    split
    · exact ih (k + 1) _ o o' fun j h1 h2 => h j (by omega) (by omega)
    · rfl

/-- C3: a failing task is re-submitted at most 2 times. The retry counter
of any task never exceeds 2 under any oracle; a settled task consults
only executions below its fuel window, so with the source's 2-retry
budget (3 executions) the conceptual third retry is never made: the
oracle that fails executions 0-2 and would succeed on execution 3
settles exactly like the always-failing oracle, recorded `failed` with
exactly 2 retries consumed, not 3. -/
theorem C3_max_two_retries :
    (∀ (row : MessageRow) (pd : PhoneData) (o : Nat → ProcOutcome) (fuel k : Nat)
        (s : MsgState),
      mapGetD s.retryAttempts (messageKey row pd) ≤ 2 →
      mapGetD (runTask s row pd o k fuel).retryAttempts (messageKey row pd) ≤ 2) ∧
    (∀ (row : MessageRow) (pd : PhoneData) (o o' : Nat → ProcOutcome) (fuel k : Nat)
        (s : MsgState),
      (∀ j, k ≤ j → j < k + fuel → o j = o' j) →
      runTask s row pd o k fuel = runTask s row pd o' k fuel) ∧
    conceptualThirdOracle 3 = .sendOk 99 ∧
    runTask scenarioStart rowB phoneP3 conceptualThirdOracle 0 3 =
      runTask scenarioStart rowB phoneP3 oracleP3 0 3 ∧
    mapGetD (runTask scenarioStart rowB phoneP3 conceptualThirdOracle 0 3).retryAttempts
      (messageKey rowB phoneP3) = 2 ∧
    ((runTask scenarioStart rowB phoneP3 conceptualThirdOracle 0 3).messageLog.find?
      (fun e => e.phone == phoneP3.phone)).map (fun e => e.status) = some "failed" := by
  refine ⟨fun row pd o fuel k s h => runTask_retry_le row pd o fuel k s h,
          fun row pd o o' fuel k s h => runTask_oracle_agree row pd fuel k s o o' h,
          rfl, by decide, by decide, by decide⟩

/-- C3 witness: the bound and the agreement instantiated on the concrete
always-failing P3 task of the scenario, hypotheses discharged. -/
theorem C3_max_two_retries_witness :
    mapGetD (runTask scenarioStart rowB phoneP3 oracleP3 0 3).retryAttempts
      (messageKey rowB phoneP3) ≤ 2 ∧
    runTask scenarioStart rowB phoneP3 conceptualThirdOracle 0 3 =
      runTask scenarioStart rowB phoneP3 (fun k =>
        if k < 3 then .sendThrew "Failed to send message: network error" else .sendOk 42) 0 3 :=
  ⟨C3_max_two_retries.1 rowB phoneP3 oracleP3 3 0 scenarioStart (by decide),
   C3_max_two_retries.2.1 rowB phoneP3 conceptualThirdOracle _ 3 0 scenarioStart
     (by intro j h1 h2; simp only [conceptualThirdOracle]; rw [if_pos (by omega), if_pos (by omega)])⟩

/-- C4 counterexample: calling `initialize()` when the session is already
Ready returns `true`, not `false` as the claim states (the
`if (this.isReady) return true` guard at whatsappService.js:176-179);
the state is indeed left unchanged with no emission. -/
theorem C4_counterexample :
    initWhatsApp readyWAState (fun _ => true) = (true, readyWAState, []) ∧
    ¬ (initWhatsApp readyWAState (fun _ => true)).1 = false := by
  exact ⟨rfl, by decide⟩

/-- C4 amended: calling `initialize()` while already Initializing returns
`false` with no state change (no teardown, no driver allocation, no
attempt emission); calling it while already Ready returns `true` — not
`false` — likewise with no state change and no emission. -/
theorem C4_amended_guards :
    (∀ (s : WAState) (o : Nat → Bool), s.isInitializing = true →
      initWhatsApp s o = (false, s, [])) ∧
    (∀ (s : WAState) (o : Nat → Bool), s.isInitializing = false → s.isReady = true →
      initWhatsApp s o = (true, s, [])) := by
  constructor
  · intro s o h
    simp [initWhatsApp, h]
  · intro s o h1 h2
    simp [initWhatsApp, h1, h2]

/-- C4 witness: both guards exercised on concrete states. -/
theorem C4_amended_guards_witness :
    initWhatsApp initializingWAState (fun _ => true) = (false, initializingWAState, []) ∧
    initWhatsApp readyWAState (fun _ => false) = (true, readyWAState, []) :=
  ⟨C4_amended_guards.1 initializingWAState (fun _ => true) rfl,
   C4_amended_guards.2 readyWAState (fun _ => false) rfl rfl⟩

theorem pqueueNext_cons_isSome (a : QTask) (ts : List QTask) :
    (pqueueNext (a :: ts)).isSome = true := by
  simp only [pqueueNext]
  cases pqueueNext ts with
  | none => rfl
  | some v => dsimp only; split <;> rfl

theorem pqueueNext_mem (ts : List QTask) (u : QTask) (h : pqueueNext ts = some u) :
    u ∈ ts := by
  induction ts generalizing u with
  | nil => simp [pqueueNext] at h
  | cons a ts ih =>
    simp only [pqueueNext] at h
    cases hrec : pqueueNext ts with
    | none =>
      rw [hrec] at h
      injection h with h
      subst h
      exact List.mem_cons_self _ _
    | some v =>
      rw [hrec] at h
      dsimp only at h
      split at h
      · injection h with h
        subst h
        exact List.mem_cons_of_mem _ (ih v hrec)
      · injection h with h
        subst h
        exact List.mem_cons_self _ _

theorem pqueueNext_max (ts : List QTask) (u : QTask) (h : pqueueNext ts = some u) :
    ∀ t ∈ ts, t.priority ≤ u.priority := by
  induction ts generalizing u with
  | nil => simp [pqueueNext] at h
  | cons a ts ih =>
    intro t ht
    simp only [pqueueNext] at h
    cases hrec : pqueueNext ts with
    | none =>
      rw [hrec] at h
      injection h with h
      subst h
      cases ts with
      | nil =>
        rcases List.mem_cons.mp ht with h1 | h1
        · subst h1; exact le_refl _
        · simp at h1
      | cons b ts2 =>
        have hs := pqueueNext_cons_isSome b ts2
        rw [hrec] at hs
        simp at hs
    | some v =>
      rw [hrec] at h
      dsimp only at h
      rcases List.mem_cons.mp ht with h1 | h1
      · subst h1
        split at h
        · rename_i hb
          injection h with h
          subst h
          simp only [betterQTask, Bool.or_eq_true, Bool.and_eq_true,
            decide_eq_true_eq, beq_iff_eq] at hb
          rcases hb with hb | hb
          · omega
          · omega
        · injection h with h
          subst h
          exact le_refl _
      · have hle := ih v hrec t h1
        split at h
        · injection h with h
          subst h
          exact hle
        · rename_i hb
          injection h with h
          subst h
          simp only [betterQTask, Bool.or_eq_true, Bool.and_eq_true,
            decide_eq_true_eq, beq_iff_eq] at hb
          push_neg at hb
          obtain ⟨hb1, -⟩ := hb
          omega

theorem pqueueNext_fifo_of_uniform (ts : List QTask)
    (hp : ∀ t ∈ ts, t.priority = freshTaskPriority) (u : QTask)
    (h : pqueueNext ts = some u) : ∀ t ∈ ts, u.arrival ≤ t.arrival := by
  induction ts generalizing u with
  | nil => simp [pqueueNext] at h
  | cons a ts ih =>
    intro t ht
    simp only [pqueueNext] at h
    cases hrec : pqueueNext ts with
    | none =>
      rw [hrec] at h
      injection h with h
      subst h
      cases ts with
      | nil =>
        rcases List.mem_cons.mp ht with h1 | h1
        · subst h1; exact le_refl _
        · simp at h1
      | cons b ts2 =>
        have hs := pqueueNext_cons_isSome b ts2
        rw [hrec] at hs
        simp at hs
    | some v =>
      rw [hrec] at h
      dsimp only at h
      have hv : v ∈ ts := pqueueNext_mem ts v hrec
      have hvp : v.priority = freshTaskPriority := hp v (List.mem_cons_of_mem _ hv)
      have hap : a.priority = freshTaskPriority := hp a (List.mem_cons_self _ _)
      simp only [freshTaskPriority] at hvp hap
      have hih := ih (fun w hw => hp w (List.mem_cons_of_mem _ hw)) v hrec
      split at h
      · rename_i hb
        injection h with h
        subst h
        simp only [betterQTask, Bool.or_eq_true, Bool.and_eq_true,
          decide_eq_true_eq, beq_iff_eq] at hb
        rcases List.mem_cons.mp ht with h1 | h1
        · subst h1
          rcases hb with hb | hb
          · omega
          · exact le_of_lt hb.2
        · exact hih t h1
      · rename_i hb
        injection h with h
        subst h
        simp only [betterQTask, Bool.or_eq_true, Bool.and_eq_true,
          decide_eq_true_eq, beq_iff_eq] at hb
        push_neg at hb
        obtain ⟨hb1, hb2⟩ := hb
        have harr : a.arrival ≤ v.arrival := hb2 (by omega)
        rcases List.mem_cons.mp ht with h1 | h1
        · subst h1; exact le_refl _
        · exact le_trans harr (hih t h1)

/-- C5 counterexample: a retry and a fresh first-attempt task do NOT
compete on equal FIFO footing. With a queued retry (priority 0, arrival
0) and a fresh task (priority 1, arrival 1), p-queue runs the fresh task
first even though the retry arrived earlier — a priority distinction
beyond FIFO arrival order. -/
theorem C5_counterexample :
    pqueueNext [retryDemoTask, freshDemoTask] = some freshDemoTask ∧
    retryDemoTask.arrival < freshDemoTask.arrival ∧
    freshDemoTask ≠ retryDemoTask := by
  refine ⟨?_, ?_, ?_⟩ <;> decide

/-- C5 amended: first-attempt tasks are enqueued at priority 1
(`startBulkMessaging`) and retries at priority 0 (the retry timer), and
p-queue schedules strictly by higher priority first: while any
first-attempt task is pending, a queued retry is never selected; FIFO
arrival order decides only among tasks of equal priority. -/
theorem C5_amended_retry_priority :
    (∀ s ready rows s', startBulkMessaging s ready rows = .ok s' →
      ∀ t ∈ s'.queue, t ∈ s.queue ∨ t.priority = freshTaskPriority) ∧
    (∀ (s : MsgState) (row : MessageRow) (pd : PhoneData),
      s.isRunning = true → s.isPaused = false →
      ∃ t, (scheduleRetryFire s row pd).queue = s.queue ++ [t] ∧
        t.priority = retryTaskPriority ∧ t.row = row ∧ t.pd = pd) ∧
    (∀ (ts : List QTask) (r : QTask), pqueueNext ts = some r →
      r.priority = retryTaskPriority →
      ∀ f ∈ ts, f.priority ≠ freshTaskPriority) ∧
    (∀ (ts : List QTask), (∀ t ∈ ts, t.priority = freshTaskPriority) →
      ∀ u, pqueueNext ts = some u → ∀ t ∈ ts, u.arrival ≤ t.arrival) := by
  refine ⟨?_, ?_, ?_, ?_⟩
  · intro s ready rows s' h t ht
    unfold startBulkMessaging at h
    split at h
    · exact absurd h (by simp)
    · split at h
      · exact absurd h (by simp)
      · injection h with h
        subst h
        simp only at ht
        rcases List.mem_append.mp ht with h1 | h1
        · exact Or.inl h1
        · rcases List.mem_map.mp h1 with ⟨p, _, rfl⟩
          exact Or.inr rfl
  · intro s row pd h1 h2
    refine ⟨{ arrival := s.nextArrival, priority := retryTaskPriority,
              row := row, pd := pd }, ?_, rfl, rfl, rfl⟩
    simp [scheduleRetryFire, h1, h2]
  · intro ts r h hr f hf hfp
    have := pqueueNext_max ts r h f hf
    rw [hfp, hr] at this
    simp [freshTaskPriority, retryTaskPriority] at this
  · intro ts hp u h t ht
    exact pqueueNext_fifo_of_uniform ts hp u h t ht

/-- C5 witness: the amended statements instantiated on concrete queues
and the concrete scenario state, hypotheses discharged. -/
theorem C5_amended_retry_priority_witness :
    (∀ t ∈ scenarioStart.queue, t ∈ initialMsgState.queue ∨ t.priority = freshTaskPriority) ∧
    (∃ t, (scheduleRetryFire scenarioStart rowA phoneP2).queue = scenarioStart.queue ++ [t] ∧
      t.priority = retryTaskPriority ∧ t.row = rowA ∧ t.pd = phoneP2) ∧
    (∀ f ∈ [retryDemoTask], f.priority ≠ freshTaskPriority) ∧
    (∀ t ∈ [freshDemoTask], freshDemoTask.arrival ≤ t.arrival) :=
  ⟨C5_amended_retry_priority.1 initialMsgState true [rowA, rowB] scenarioStart rfl,
   C5_amended_retry_priority.2.1 scenarioStart rowA phoneP2 rfl rfl,
   C5_amended_retry_priority.2.2.1 [retryDemoTask] retryDemoTask rfl rfl,
   C5_amended_retry_priority.2.2.2 [freshDemoTask] (by decide) freshDemoTask rfl⟩

/-- C6: when `checkRegistration` reports invalid, `processMessage` invokes
exactly the same failure handler (`handleFailedMessage`) with reason
`Phone not registered: ...` that a send failure invokes — same retry
scheduling, same terminal `failed` LogEntry, stats update, notifications
and persistence forwarding; there is no special-cased immediate skip. -/
theorem C6_reg_invalid_same_as_send_failure :
    ∀ (s : MsgState) (row : MessageRow) (pd : PhoneData) (reason msg : String) (now : Nat),
      s.isRunning = true → s.isPaused = false →
      processMessage s row pd (.regInvalid reason) now =
        handleFailedMessage s row pd ("Phone not registered: " ++ reason) now ∧
      processMessage s row pd (.sendThrew msg) now =
        handleFailedMessage s row pd msg now := by
  intro s row pd reason msg now h1 h2
  constructor <;> simp [processMessage, h1, h2]

/-- C6 witness: the equality exercised on the concrete running scenario
state. -/
theorem C6_reg_invalid_same_as_send_failure_witness :
    processMessage scenarioStart rowA phoneP1 (.regInvalid "Number not registered on WhatsApp") 7 =
      handleFailedMessage scenarioStart rowA phoneP1
        ("Phone not registered: " ++ "Number not registered on WhatsApp") 7 :=
  (C6_reg_invalid_same_as_send_failure scenarioStart rowA phoneP1
    "Number not registered on WhatsApp" "x" 7 rfl rfl).1

theorem processMessage_log_save_diff (s : MsgState) (row : MessageRow)
    (pd : PhoneData) (outcome : ProcOutcome) (now : Nat) :
    ∃ d, (processMessage s row pd outcome now).1.messageLog = s.messageLog ++ d ∧
         (processMessage s row pd outcome now).1.savedLogs = s.savedLogs ++ d := by
  unfold processMessage
  split
  · exact ⟨[], by simp⟩
  · have hfail : ∀ e n, ∃ d,
        (handleFailedMessage s row pd e n).1.messageLog = s.messageLog ++ d ∧
        (handleFailedMessage s row pd e n).1.savedLogs = s.savedLogs ++ d := by
      intro e n
      simp only [handleFailedMessage]
      split
      · exact ⟨[], by simp⟩
      · exact ⟨[createLogEntry row pd.phone "failed" none (some e) n pd.column n], ⟨rfl, rfl⟩⟩
    cases outcome with
    | regInvalid r => exact hfail _ _
    | sendOk ts =>
        exact ⟨[createLogEntry row pd.phone "sent" (some row.message) none ts pd.column ts],
          ⟨rfl, rfl⟩⟩
    | sendNotSuccess => exact hfail _ _
    | sendThrew m => exact hfail _ _

/-- C7: across any sequence of dispatch events, the entries appended to
the in-memory `messageLog` and the entries forwarded to the persistence
collaborator `saveLog` are the same list — every appended `sent`/`failed`
entry is persisted exactly once, none duplicated, none dropped, for any
batch size. -/
theorem C7_log_persistence_round_trip :
    ∀ (s : MsgState) (evs : List DispatchEvent),
      ∃ d, (runEvents s evs).messageLog = s.messageLog ++ d ∧
           (runEvents s evs).savedLogs = s.savedLogs ++ d := by
  intro s evs
  induction evs generalizing s with
  | nil => exact ⟨[], by simp [runEvents]⟩
  | cons ev evs ih =>
    cases ev with
    | proc row pd outcome now =>
      obtain ⟨d1, hm1, hs1⟩ := processMessage_log_save_diff s row pd outcome now
      obtain ⟨d2, hm2, hs2⟩ := ih ((processMessage s row pd outcome now).1)
      refine ⟨d1 ++ d2, ?_, ?_⟩
      · rw [show runEvents s (DispatchEvent.proc row pd outcome now :: evs) =
            runEvents (applyEvent s (.proc row pd outcome now)) evs from rfl]
        rw [applyEvent]
        rw [hm2, hm1, List.append_assoc]
      · rw [show runEvents s (DispatchEvent.proc row pd outcome now :: evs) =
            runEvents (applyEvent s (.proc row pd outcome now)) evs from rfl]
        rw [applyEvent]
        rw [hs2, hs1, List.append_assoc]

/-- C8: `cancelMessaging` during an active batch leaves `isRunning = false`,
clears the paused flag and all pending queued tasks; a subsequent
`startBulkMessaging` with a new row set (session Ready) succeeds and
resets stats to `{total = sum of valid phone counts, sent = 0,
failed = 0, remaining = total}`, uncontaminated by the cancelled batch's
counts, and clears the log and the retry map. -/
theorem C8_cancel_then_restart :
    ∀ (s : MsgState) (rows : List MessageRow), s.isRunning = true →
      ∃ s1 s2, cancelMessaging s = .ok s1 ∧
        s1.isRunning = false ∧ s1.isPaused = false ∧ s1.queue = [] ∧
        startBulkMessaging s1 true rows = .ok s2 ∧
        s2.stats = { total := (batchTotal rows : Int), sent := 0, failed := 0,
                     remaining := (batchTotal rows : Int) } ∧
        s2.messageLog = [] ∧ s2.retryAttempts = [] ∧ s2.isRunning = true := by
  intro s rows h
  have hc : cancelMessaging s = .ok (cancelResult s) := by
    simp [cancelMessaging, cancelResult, h]
  exact ⟨_, _, hc, rfl, rfl, rfl, rfl, rfl, rfl, rfl, rfl⟩

/-- C8 witness: cancel the running scenario batch and restart with row B
alone. -/
theorem C8_cancel_then_restart_witness :
    ∃ s1 s2, cancelMessaging scenarioStart = .ok s1 ∧
      s1.isRunning = false ∧ s1.isPaused = false ∧ s1.queue = [] ∧
      startBulkMessaging s1 true [rowB] = .ok s2 ∧
      s2.stats = { total := (batchTotal [rowB] : Int), sent := 0, failed := 0,
                   remaining := (batchTotal [rowB] : Int) } ∧
      s2.messageLog = [] ∧ s2.retryAttempts = [] ∧ s2.isRunning = true :=
  C8_cancel_then_restart scenarioStart [rowB] rfl

/-- C9: `getStats()` and `getMessageLog()` hand out fresh copies — a
shallow copy of the stats object and a new array holding the log
entries. The returned reference is distinct from the service's own, its
content equals the service's at the time of the call, and any caller
mutation through the returned reference leaves the service's cell
unchanged. -/
theorem C9_getters_return_copies :
    ∀ h : SvcHeap, h.statsRef < h.statsCells.length → h.logRef < h.logCells.length →
      readStatsCell (getStats h).1 (getStats h).2 = readStatsCell h h.statsRef ∧
      (getStats h).2 ≠ h.statsRef ∧
      (∀ v, readStatsCell (writeStatsCell (getStats h).1 (getStats h).2 v) h.statsRef =
        readStatsCell h h.statsRef) ∧
      readLogCell (getMessageLog h).1 (getMessageLog h).2 = readLogCell h h.logRef ∧
      (getMessageLog h).2 ≠ h.logRef ∧
      (∀ v, readLogCell (writeLogCell (getMessageLog h).1 (getMessageLog h).2 v) h.logRef =
        readLogCell h h.logRef) := by
  intro h hs hl
  refine ⟨?_, ?_, ?_, ?_, ?_, ?_⟩
  · simp only [readStatsCell, getStats, List.getD_eq_getElem?_getD]
    rw [List.getElem?_concat_length]
    rfl
  · show h.statsCells.length ≠ h.statsRef
    omega
  · intro v
    simp only [readStatsCell, getStats, writeStatsCell, List.getD_eq_getElem?_getD]
    rw [List.getElem?_set_ne (show h.statsCells.length ≠ h.statsRef by omega),
      List.getElem?_append, if_pos hs]
  · simp only [readLogCell, getMessageLog, List.getD_eq_getElem?_getD]
    rw [List.getElem?_concat_length]
    rfl
  · show h.logCells.length ≠ h.logRef
    omega
  · intro v
    simp only [readLogCell, getMessageLog, writeLogCell, List.getD_eq_getElem?_getD]
    rw [List.getElem?_set_ne (show h.logCells.length ≠ h.logRef by omega),
      List.getElem?_append, if_pos hl]

/-- C9 witness: the copy semantics exercised on a concrete heap, with the
valid-reference hypotheses discharged. -/
theorem C9_getters_return_copies_witness :
    demoHeap.statsRef < demoHeap.statsCells.length ∧
    (∀ v, readStatsCell (writeStatsCell (getStats demoHeap).1 (getStats demoHeap).2 v)
      demoHeap.statsRef = readStatsCell demoHeap demoHeap.statsRef) ∧
    (∀ v, readLogCell (writeLogCell (getMessageLog demoHeap).1 (getMessageLog demoHeap).2 v)
      demoHeap.logRef = readLogCell demoHeap demoHeap.logRef) :=
  ⟨by decide,
   (C9_getters_return_copies demoHeap (by decide) (by decide)).2.2.1,
   (C9_getters_return_copies demoHeap (by decide) (by decide)).2.2.2.2.2⟩

/-- C10: because `setupEventHandlers` registers the `auth_failure` and
`disconnected` handlers twice each, one driver `auth_failure` event
produces exactly two `auth_failure` notifications and one driver
`disconnected` event produces exactly two `disconnected` notifications;
every one of those four registered handlers sets `isReady := false`. -/
theorem C10_duplicate_handler_registration :
    (∀ (s : WAState) (m : Option String),
      ((dispatchWAEvent "auth_failure" m s).2.filter isAuthFailureEmit).length = 2 ∧
      (dispatchWAEvent "auth_failure" m s).1.isReady = false) ∧
    (∀ (s : WAState) (r : Option String),
      ((dispatchWAEvent "disconnected" r s).2.filter isDisconnectedEmit).length = 2 ∧
      (dispatchWAEvent "disconnected" r s).1.isReady = false) ∧
    (∀ p ∈ waEventHandlers, p.1 = "auth_failure" ∨ p.1 = "disconnected" →
      ∀ (s : WAState) (m : Option String), ((p.2 s m).1).isReady = false) := by
  refine ⟨fun s m => ⟨rfl, rfl⟩, fun s r => ⟨rfl, rfl⟩, ?_⟩
  intro p hp hname s m
  fin_cases hp
  · exact absurd hname (by decide)
  · exact absurd hname (by decide)
  · exact absurd hname (by decide)
  · exact absurd hname (by decide)
  · rfl
  · rfl
  · exact absurd hname (by decide)
  · exact absurd hname (by decide)
  · rfl
  · rfl
  · exact absurd hname (by decide)
  · exact absurd hname (by decide)

/-- C10 witness: the duplicated-handler facts at a concrete state, with
the membership and name hypotheses discharged on the fifth registration
(the first `auth_failure` handler). -/
theorem C10_duplicate_handler_registration_witness :
    ((dispatchWAEvent "auth_failure" none readyWAState).2.filter isAuthFailureEmit).length = 2 ∧
    ((dispatchWAEvent "disconnected" none readyWAState).2.filter isDisconnectedEmit).length = 2 ∧
    ((waEventHandlers.get ⟨4, by decide⟩).2 readyWAState none).1.isReady = false :=
  ⟨(C10_duplicate_handler_registration.1 readyWAState none).1,
   (C10_duplicate_handler_registration.2.1 readyWAState none).1,
   C10_duplicate_handler_registration.2.2 (waEventHandlers.get ⟨4, by decide⟩)
     (waEventHandlers.get_mem _ _) (Or.inl rfl) readyWAState none⟩
